import Mathlib

/-!
Shallow embedding of the balance computation and caching core of the
NetSuite Excel add-in backend (src/backend/server.py and
src/backend/constants.py), together with theorems settling the spec
claims about it.

Amounts are modelled as rationals, ledger results as structured values,
and each SQL query template as a structured record capturing the parts
of the emitted query that the claims speak about (date bounds, the
sign-multiplier CASE expressions, and the period argument handed to
BUILTIN.CONSOLIDATE).
-/

namespace NsXavi

/-- NetSuite account type values, mirroring the string constants in
`src/backend/constants.py` (class `AccountType`). -/
inductive AcctType where
  | bank
  | acctRec
  | othCurrAsset
  | fixedAsset
  | othAsset
  | deferExpense
  | unbilledRec
  | acctPay
  | credCard
  | othCurrLiab
  | longTermLiab
  | deferRevenue
  | equity
  | retainedEarnings
  | income
  | othIncome
  | cogs
  | costOfGoodsSold
  | expense
  | othExpense
  | nonPosting
  | stat
  deriving DecidableEq, Repr

open AcctType

/-- `AccountType.PL_TYPES` from constants.py: all P&L account types. -/
def PL_TYPES : List AcctType :=
  [income, othIncome, cogs, costOfGoodsSold, expense, othExpense]

/-- `AccountType.BS_ASSET_TYPES` from constants.py. -/
def BS_ASSET_TYPES : List AcctType :=
  [bank, acctRec, othCurrAsset, fixedAsset, othAsset, deferExpense, unbilledRec]

/-- `AccountType.BS_LIABILITY_TYPES` from constants.py. -/
def BS_LIABILITY_TYPES : List AcctType :=
  [acctPay, credCard, othCurrLiab, longTermLiab, deferRevenue]

/-- `AccountType.BS_EQUITY_TYPES` from constants.py. -/
def BS_EQUITY_TYPES : List AcctType :=
  [equity, retainedEarnings]

/-- `AccountType.SIGN_FLIP_TYPES` from constants.py: liabilities plus equity. -/
def SIGN_FLIP_TYPES : List AcctType :=
  [acctPay, credCard, othCurrLiab, longTermLiab, deferRevenue, equity, retainedEarnings]

/-- `AccountType.NON_FINANCIAL_TYPES` from constants.py. -/
def NON_FINANCIAL_TYPES : List AcctType :=
  [nonPosting, stat]

/-- `INCOME_TYPES_SQL` from constants.py: the types flipped by the P&L sign CASE. -/
def INCOME_TYPES : List AcctType :=
  [income, othIncome]

/-- `AccountType.is_balance_sheet` from constants.py lines 157-160:
an account type is Balance Sheet when it is in neither the P&L type set
nor the non-financial (statistical) set. -/
def is_balance_sheet (t : AcctType) : Bool :=
  decide (t ∉ PL_TYPES) && decide (t ∉ NON_FINANCIAL_TYPES)

/-- `is_balance_sheet_account` from server.py lines 268-282, which
delegates to `AccountType.is_balance_sheet`. -/
def is_balance_sheet_account (t : AcctType) : Bool :=
  is_balance_sheet t

/-! ## Sign multipliers emitted by the query builders -/

/-- Sign-multiplier CASE expressions applied to the raw consolidated amount
by `build_pl_query` (server.py lines 1748-1749 and 1775-1776): exactly one
CASE, `-1` for Income/OthIncome and `1` otherwise.  The list holds one
entry per `* CASE ...` factor in the emitted SQL. -/
def plQuerySignFactors (t : AcctType) : List ℚ :=
  [if t ∈ INCOME_TYPES then -1 else 1]

/-- Effective amount one ledger row contributes in a `build_pl_query`
query: the raw consolidated amount times every emitted CASE factor. -/
def plQueryRowAmount (t : AcctType) (raw : ℚ) : ℚ :=
  (plQuerySignFactors t).foldl (· * ·) raw

/-- Sign-multiplier CASE expressions applied by
`build_bs_query_single_period` (server.py lines 1873-1895): the emitted
`SELECT a.acctnumber, SUM({amount_calc}) AS balance` carries no sign CASE
at all, so the factor list is empty. -/
def bsSingleQuerySignFactors (_t : AcctType) : List ℚ :=
  []

/-- Effective amount one ledger row contributes in a
`build_bs_query_single_period` query. -/
def bsSingleQueryRowAmount (t : AcctType) (raw : ℚ) : ℚ :=
  (bsSingleQuerySignFactors t).foldl (· * ·) raw

/-- Modelled from the spec: the fixed sign-convention table of §4.3
(Income/Other Income −1; COGS/Expense/Other Expense +1; all assets +1;
all liabilities −1; Equity and Retained Earnings −1).  This definition
follows the spec's words and exists only to be compared with the
multipliers the source code actually emits. -/
def spec_sign_multiplier : AcctType → ℚ
  | income | othIncome => -1
  | cogs | costOfGoodsSold | expense | othExpense => 1
  | bank | acctRec | othCurrAsset | fixedAsset | othAsset | deferExpense | unbilledRec => 1
  | acctPay | credCard | othCurrLiab | longTermLiab | deferRevenue => -1
  | equity | retainedEarnings => -1
  | nonPosting | stat => 1

/-! ## BUILTIN.CONSOLIDATE period parameterization -/

/-- The period argument a query template hands to `BUILTIN.CONSOLIDATE`
(or no consolidation at all, when the template falls back to the raw
`tal.amount`). -/
inductive ConsPeriod where
  | targetPeriod (periodId : ℕ)
  | postingPeriod
  | rawAmount
  deriving DecidableEq, Repr

/-- Structured content of the query emitted by
`build_bs_query_single_period` (server.py lines 1814-1895): P&L types
excluded, a single upper transaction-date bound with no lower bound, and
`BUILTIN.CONSOLIDATE` parameterized by the target period's id when that
id resolved (lines 1856-1867), falling back to the raw, unconsolidated
`tal.amount` otherwise (lines 1868-1871). -/
structure BsSingleQuery where
  excludedTypes : List AcctType
  tranDateUpper : String
  tranDateLower : Option String
  consPeriod : ConsPeriod
  deriving DecidableEq, Repr

/-- `build_bs_query_single_period` from server.py lines 1814-1895,
reduced to the structured parts the claims are about. -/
def build_bs_query_single_period (endDateStr : String) (periodId : Option ℕ) : BsSingleQuery :=
  { excludedTypes := PL_TYPES
    tranDateUpper := endDateStr
    tranDateLower := none
    consPeriod :=
      match periodId with
      | some pid => ConsPeriod.targetPeriod pid
      | none => ConsPeriod.rawAmount }

/-- Period argument of `BUILTIN.CONSOLIDATE` in every branch of the
`/balance` endpoint `get_balance` (server.py lines 5026-5179): each of
the six query variants — including the optimized cumulative
Balance-Sheet branch at lines 5030-5077 — writes `t.postingperiod` as
the CONSOLIDATE period argument. -/
def getBalanceConsPeriod (_isCumulativeBs : Bool) (_needsLineJoin : Bool) : ConsPeriod :=
  ConsPeriod.postingPeriod

/-- Period argument of `BUILTIN.CONSOLIDATE` in the prior-year
ending-balance query of `batch_full_year_refresh` (server.py lines
2960-2979): the query writes `t.postingperiod`. -/
def priorYearBalanceQueryConsPeriod : ConsPeriod :=
  ConsPeriod.postingPeriod

/-- Period argument of `BUILTIN.CONSOLIDATE` in the six CTA component
queries of `calculate_cta` (server.py lines 7774-7777): the shared
`cons_amount` fragment uses the resolved target period id when a target
subsidiary exists, and the raw amount otherwise. -/
def ctaConsPeriod (targetSub : Option String) (targetPeriodId : ℕ) : ConsPeriod :=
  match targetSub with
  | some _ => ConsPeriod.targetPeriod targetPeriodId
  | none => ConsPeriod.rawAmount

/-! ## Ledger client results and rate-limit retry -/

/-- Outcome of `query_netsuite` (server.py lines 113-152): on HTTP 200 a
list of rows, otherwise an error dict whose `details` string carries the
upstream response text.  A single-aggregate row is modelled as its
optional `value` column (`SUM` over no rows yields SQL NULL, i.e.
`none`). -/
inductive NsResult where
  | rows (items : List (Option ℚ))
  | error (details : String)
  deriving DecidableEq, Repr

/-- Whether a character list starts with the pattern. -/
def startsWithChars : List Char → List Char → Bool
  | [], _ => true
  | _ :: _, [] => false
  | p :: ps, c :: cs => p == c && startsWithChars ps cs

/-- Whether the pattern occurs anywhere in the character list. -/
def hasSubChars : List Char → List Char → Bool
  | [], pat => pat.isEmpty
  | c :: cs, pat => startsWithChars pat (c :: cs) || hasSubChars cs pat

/-- String containment test, mirroring Python's `'pat' in s`. -/
def containsSub (s pat : String) : Bool :=
  hasSubChars s.toList pat.toList

/-- Rate-limit classification used by both retry helpers (server.py
lines 7893-7895 and 6955-6957): an error result whose details mention
`CONCURRENCY_LIMIT_EXCEEDED` or `429`. -/
def isRateLimitError : NsResult → Bool
  | NsResult.rows _ => false
  | NsResult.error d => containsSub d "CONCURRENCY_LIMIT_EXCEEDED" || containsSub d "429"

/-- Recursive core of `query_with_retry` (server.py lines 7886-7901) and
`query_with_retry_re` (lines 6951-6963).  `exec` gives the ledger result
of each attempt, `attempt` is the 0-based index of the next attempt, and
`last` is the most recent result (returned when the loop exhausts its
`remaining` iterations).  Returns the final result, the number of
attempts actually executed, and the list of backoff waits slept, in
seconds (`wait_time = (attempt + 1) * 2`). -/
def queryWithRetryGo (exec : ℕ → NsResult) (attempt : ℕ) (last : NsResult) :
    ℕ → NsResult × ℕ × List ℕ
  | 0 => (last, attempt, [])
  | remaining + 1 =>
      let r := exec attempt
      if isRateLimitError r then
        let rest := queryWithRetryGo exec (attempt + 1) r remaining
        (rest.1, rest.2.1, ((attempt + 1) * 2) :: rest.2.2)
      else
        (r, attempt + 1, [])

/-- `query_with_retry` with its default `max_retries=3`: up to three
attempts, sleeping 2s, 4s, 6s after rate-limited attempts, and returning
the last result even when it is still a rate-limit error. -/
def queryWithRetry (exec : ℕ → NsResult) : NsResult × ℕ × List ℕ :=
  queryWithRetryGo exec 0 (NsResult.rows []) 3

/-! ## Parallel aggregation merge and the derived-metric engine -/

/-- Value a named component contributes after its future completes
(server.py lines 7912-7929): an error result or an empty row list yields
`0.0`; otherwise the first row's `value` column, with SQL NULL coalesced
to `0.0`. -/
def componentValue : NsResult → ℚ
  | NsResult.error _ => 0
  | NsResult.rows [] => 0
  | NsResult.rows (v :: _) => v.getD 0

/-- Error-list entry a named component contributes (server.py lines
7914-7918): errors are recorded as `name: details`, successful results
record nothing. -/
def componentError (name : String) : NsResult → Option String
  | NsResult.error d => some (name ++ ": " ++ d)
  | NsResult.rows _ => none

/-- Results of the six component queries of `calculate_cta` (server.py
lines 7791-7878), one `NsResult` per named query. -/
structure CTAQueryResults where
  total_assets : NsResult
  total_liabilities : NsResult
  posted_equity : NsResult
  prior_pl : NsResult
  posted_re : NsResult
  net_income : NsResult
  deriving DecidableEq, Repr

/-- Component block of the `/cta` JSON response (server.py lines
7974-7981). -/
structure CTAComponents where
  total_assets : ℚ
  total_liabilities : ℚ
  total_equity : ℚ
  posted_equity : ℚ
  retained_earnings : ℚ
  net_income : ℚ
  deriving DecidableEq, Repr

/-- The full `/cta` JSON response payload (server.py lines 7971-7982):
exactly the fields `value`, `period` and `components` are serialized —
the internal `query_errors` list is not part of the payload. -/
structure CTAResponse where
  value : ℚ
  period : String
  components : CTAComponents
  deriving DecidableEq, Repr

/-- `calculate_cta`'s result extraction and plug computation (server.py
lines 7934-7982): each component defaults through `componentValue`,
`total_equity = total_assets - total_liabilities`,
`retained_earnings = prior_pl + posted_re`, and
`cta = total_equity - posted_equity - retained_earnings - net_income`. -/
def calculate_cta (periodName : String) (r : CTAQueryResults) : CTAResponse :=
  let total_assets := componentValue r.total_assets
  let total_liabilities := componentValue r.total_liabilities
  let posted_equity := componentValue r.posted_equity
  let prior_pl := componentValue r.prior_pl
  let posted_re := componentValue r.posted_re
  let net_income := componentValue r.net_income
  let total_equity := total_assets - total_liabilities
  let retained_earnings := prior_pl + posted_re
  { value := total_equity - posted_equity - retained_earnings - net_income
    period := periodName
    components :=
      { total_assets := total_assets
        total_liabilities := total_liabilities
        total_equity := total_equity
        posted_equity := posted_equity
        retained_earnings := retained_earnings
        net_income := net_income } }

/-- The internal `query_errors` list of `calculate_cta` (server.py lines
7903-7932), in component order: every failed component's `name: details`
entry.  The code only prints this list; it never reaches the response
payload. -/
def ctaQueryErrors (r : CTAQueryResults) : List String :=
  ([componentError "total_assets" r.total_assets,
    componentError "total_liabilities" r.total_liabilities,
    componentError "posted_equity" r.posted_equity,
    componentError "prior_pl" r.prior_pl,
    componentError "posted_re" r.posted_re,
    componentError "net_income" r.net_income]).reduceOption

/-- Value returned by the standalone `/retained-earnings` endpoint
`calculate_retained_earnings` (server.py lines 6996-7009):
`prior_pl + posted_re`, each component defaulting through the same
extraction as the CTA merge loop. -/
def calculate_retained_earnings (priorPl postedRe : NsResult) : ℚ :=
  componentValue priorPl + componentValue postedRe

/-! ## Balance cache: keys and the batch cache-hit decision -/

/-- First-match association-list lookup, modelling a Python dict read. -/
def alookup {β : Type} : List (String × β) → String → Option β
  | [], _ => none
  | (k, v) :: rest, key => if k = key then some v else alookup rest key

/-- Filter fingerprint of the balance cache (server.py lines 2851 and
4074): `"{subsidiary}:{department}:{location}:{class_id}"`. -/
def filtersHashStr (subsidiary department location classId : String) : String :=
  subsidiary ++ ":" ++ department ++ ":" ++ location ++ ":" ++ classId

/-- Balance-cache key (server.py lines 2860 and 4095):
`"{account}:{period}:{filters_hash}"`. -/
def balanceCacheKey (account period fh : String) : String :=
  account ++ ":" ++ period ++ ":" ++ fh

/-- `BALANCE_CACHE_TTL` from server.py line 61: 300 seconds. -/
def BALANCE_CACHE_TTL : ℚ := 300

/-- Cache-serving decision of `batch_balance` (server.py lines
4064-4118).  `tsSet` models `balance_cache_timestamp` being non-None and
`age` the computed cache age in seconds.  When the cache is non-empty,
timestamped, younger than the TTL and every requested
`account:period:fingerprint` key is present, the whole batch is served
from the cache; otherwise the function yields `none` and the endpoint
falls through to fresh ledger queries for the entire batch. -/
def batchBalanceFromCache (cache : List (String × ℚ)) (tsSet : Bool) (age : ℚ)
    (accounts periods : List String) (fh : String) :
    Option (List (String × List (String × ℚ))) :=
  if !cache.isEmpty && tsSet then
    if age < BALANCE_CACHE_TTL then
      if accounts.all (fun a => periods.all (fun p =>
          (alookup cache (balanceCacheKey a p fh)).isSome)) then
        some (accounts.map (fun a =>
          (a, periods.map (fun p =>
            (p, (alookup cache (balanceCacheKey a p fh)).getD 0)))))
      else
        none
    else
      none
  else
    none

/-- Value served for one account and period out of a cache-hit batch
response (`result_balances[account][period]`). -/
def servedValue (r : List (String × List (String × ℚ))) (account period : String) : Option ℚ :=
  (alookup r account).bind (fun pv => alookup pv period)

/-! ## Hierarchy resolver -/

/-- One row of the bulk subsidiary fetch
(`SELECT id, parent, iselimination FROM Subsidiary WHERE isinactive = 'F'`,
server.py lines 777-781): every fetched row is an active subsidiary. -/
structure SubRow where
  id : String
  parent : Option String
  iselimination : Bool
  deriving DecidableEq, Repr

/-- Children of a parent id in row order, as accumulated into
`children_map` (server.py lines 788-802). -/
def childrenOf (rows : List SubRow) (parentId : String) : List String :=
  (rows.filter (fun r => r.parent = some parentId)).map (fun r => r.id)

/-- Breadth-first accumulation of descendants (server.py lines 810-821):
pop the queue head, append unseen children to both the accumulated ids
and the queue.  Structured on explicit fuel; any fuel large enough to
drain the queue gives the Python loop's result, and the membership
invariants proved below hold for every fuel. -/
def bfsHierarchy (rows : List SubRow) : ℕ → List String → List String → List String
  | 0, acc, _ => acc
  | _ + 1, acc, [] => acc
  | fuel + 1, acc, current :: queue =>
      let step := (childrenOf rows current).foldl
        (fun (st : List String × List String) c =>
          if st.1.contains c then st else (st.1 ++ [c], st.2 ++ [c]))
        (acc, queue)
      bfsHierarchy rows fuel step.1 step.2

/-- `get_subsidiaries_in_hierarchy` (server.py lines 752-831), with the
bulk fetch abstracted as `fetch`: `none` models a failed fetch or a
non-list result, which degrades to `[target]` (lines 784-786 and
829-831).  When the target is present with a NULL parent, the result is
every fetched subsidiary id (lines 804-809, dict-key uniqueness kept by
`dedup`); otherwise the breadth-first traversal from the target. -/
def get_subsidiaries_in_hierarchy (targetId : String) (fetch : Option (List SubRow)) :
    List String :=
  match fetch with
  | none => [targetId]
  | some rows =>
      match rows.reverse.find? (fun r => r.id = targetId) with
      | some r =>
          if r.parent = none then
            (rows.map (fun row => row.id)).dedup
          else
            bfsHierarchy rows (rows.length * rows.length + 1) [targetId] [targetId]
      | none =>
          bfsHierarchy rows (rows.length * rows.length + 1) [targetId] [targetId]

/-! ## Full-year refresh and cumulative reconstruction -/

/-- Floating-point tidy-up in the cumulative loop (server.py lines
3006-3009): a running cumulative with absolute value below 0.01 is
snapped to exactly 0. -/
def snapTiny (q : ℚ) : ℚ :=
  if |q| < 1 / 100 then 0 else q

/-- Running cumulative balances (server.py lines 2996-3012): starting
from the prior-year ending balance, add each month's activity in
chronological order, snapping tiny values to 0 after every month.  The
n-th entry is the cumulative balance stored for the n-th month. -/
def cumulativeBalances : ℚ → List ℚ → List ℚ
  | _, [] => []
  | c, a :: rest =>
      let c' := snapTiny (c + a)
      c' :: cumulativeBalances c' rest

/-- Month abbreviations in chronological order (`month_order`,
server.py lines 2948-2949, and the pivoted month columns of lines
2803-2816). -/
def monthAbbrevs : List String :=
  ["Jan", "Feb", "Mar", "Apr", "May", "Jun",
   "Jul", "Aug", "Sep", "Oct", "Nov", "Dec"]

/-- Period name of a month in a fiscal year, e.g. `"Jan 2025"`. -/
def periodNameOf (month : String) (fiscalYear : ℕ) : String :=
  month ++ " " ++ toString fiscalYear

/-- Pad a monthly list with zeros up to `n` entries, modelling
`activity_by_period.get(period_name, 0)` over the full month order. -/
def padTo (n : ℕ) (l : List ℚ) : List ℚ :=
  l ++ List.replicate (n - l.length) 0

/-- Process-wide cache state touched by the full-year refresh: the
balance cache (server.py line 59) and the BS activity cache (line 70). -/
structure CacheState where
  balanceCache : List (String × ℚ)
  bsActivityCache : List (String × ℚ)
  deriving DecidableEq, Repr

/-- Modelled from the spec: the `bsActivity` field holds the per-account
monthly Balance-Sheet activity rows returned by
`build_full_year_bs_query`, which is called at server.py line 2900 but
whose definition is missing from the sources — per §4.2 item 3 of the
spec that query returns period activity (not cumulative balances) per
account and month.  The remaining fields come from the source: per
account, `plBalances` gives the twelve pivoted month columns of the P&L
query, `priorYearBalances` the prior-year ending balances, and `skipBs`
the `skip_bs` request flag. -/
structure RefreshInput where
  fiscalYear : ℕ
  filtersHash : String
  plBalances : List (String × List ℚ)
  skipBs : Bool
  bsActivity : List (String × List ℚ)
  priorYearBalances : List (String × ℚ)
  deriving DecidableEq, Repr

/-- Balance-cache entries written for the P&L pivoted results
(server.py lines 2858-2862): one entry per account and month column,
keyed `account:Mon FY:filters_hash`. -/
def plCacheEntries (inp : RefreshInput) : List (String × ℚ) :=
  inp.plBalances.flatMap (fun av =>
    (monthAbbrevs.zip av.2).map (fun mv =>
      (balanceCacheKey av.1 (periodNameOf mv.1 inp.fiscalYear) inp.filtersHash, mv.2)))

/-- BS activity-cache entries (server.py lines 2938-2940), keyed
`activity:account:period:filters_hash`. -/
def bsActivityEntries (inp : RefreshInput) : List (String × ℚ) :=
  inp.bsActivity.flatMap (fun av =>
    (monthAbbrevs.zip av.2).map (fun mv =>
      ("activity:" ++ balanceCacheKey av.1 (periodNameOf mv.1 inp.fiscalYear) inp.filtersHash,
        mv.2)))

/-- Balance-cache entries written for the cumulative BS balances
(server.py lines 2991-3018): per account, start from the prior-year
ending balance (0 when absent) and store the running cumulative for all
twelve months. -/
def bsCumulativeEntries (inp : RefreshInput) : List (String × ℚ) :=
  inp.bsActivity.flatMap (fun av =>
    let prior := (alookup inp.priorYearBalances av.1).getD 0
    (monthAbbrevs.zip (cumulativeBalances prior (padTo 12 av.2))).map (fun mv =>
      (balanceCacheKey av.1 (periodNameOf mv.1 inp.fiscalYear) inp.filtersHash, mv.2)))

/-- Cache effect of `batch_full_year_refresh` (server.py lines
2845-3028): the balance cache is reset to `{}` (line 2848) and
repopulated from this refresh's own results; when `skip_bs` is false the
BS activity cache is likewise reset (line 2895) and repopulated, while a
`skip_bs` refresh returns early (lines 2872-2887) leaving the BS
activity cache untouched. -/
def batch_full_year_refresh (old : CacheState) (inp : RefreshInput) : CacheState :=
  if inp.skipBs then
    { balanceCache := plCacheEntries inp
      bsActivityCache := old.bsActivityCache }
  else
    { balanceCache := plCacheEntries inp ++ bsCumulativeEntries inp
      bsActivityCache := bsActivityEntries inp }

/-! ## The /balance endpoint's period semantics -/

/-- Date/period constraints a `get_balance` query places on transactions
(server.py lines 4948-4990): posting-period id bounds for digit inputs,
an `ap.startdate >= from AND ap.enddate <= to` range for resolved period
names, a `periodname =` fallback, or — for cumulative Balance-Sheet
requests — a single `t.trandate <=` upper bound with no lower bound. -/
inductive PeriodFilter where
  | postingRange (lo hi : String)
  | postingSingle (pid : String)
  | postingUpper (pid : String)
  | dateRange (fromStart toEnd : String)
  | singlePeriod (name : String)
  | cumulative (endDate : String)
  | noPeriodFilter
  deriving DecidableEq, Repr

/-- Python's `str.isdigit` for our purposes: non-empty and all digits. -/
def isAllDigits (s : String) : Bool :=
  !s.isEmpty && s.toList.all Char.isDigit

/-- Period-filter construction of `get_balance` (server.py lines
4906-4990).  `isBs` is the auto-detected Balance-Sheet flag; `dates`
models `get_period_dates_from_name`, returning the period's start and
end dates.  For a Balance-Sheet account with both bounds supplied, the
caller's `from_period` is cleared first (lines 4907-4910), which routes
the request into the cumulative branch (lines 4971-4990). -/
def get_balance_period_filter (isBs : Bool) (fromPeriod toPeriod : String)
    (dates : String → Option (String × String)) : PeriodFilter :=
  let fromP := if isBs && !fromPeriod.isEmpty && !toPeriod.isEmpty then "" else fromPeriod
  if !fromP.isEmpty && !toPeriod.isEmpty then
    if isAllDigits fromP && isAllDigits toPeriod then
      PeriodFilter.postingRange fromP toPeriod
    else
      match dates fromP, dates toPeriod with
      | some (fs, _), some (_, te) => PeriodFilter.dateRange fs te
      | _, _ => PeriodFilter.singlePeriod fromP
  else if !fromP.isEmpty then
    if isAllDigits fromP then PeriodFilter.postingSingle fromP
    else PeriodFilter.singlePeriod fromP
  else if !toPeriod.isEmpty then
    if isAllDigits toPeriod then PeriodFilter.postingUpper toPeriod
    else
      match dates toPeriod with
      | some (_, te) => PeriodFilter.cumulative te
      | none => PeriodFilter.singlePeriod toPeriod
  else
    PeriodFilter.noPeriodFilter

/-! ## Theorems -/

/-- C1: for every CTA request, the returned value equals
`(A − L) − E − (P + R) − N` over the six component-query totals, with the
response components reporting `total_equity = A − L` and
`retained_earnings = P + R`, the same prior-P&L-plus-posted-RE formula
the standalone Retained Earnings operation returns. -/
theorem c1_cta_plug_formula (period : String) (r : CTAQueryResults) :
    (calculate_cta period r).value =
      (componentValue r.total_assets - componentValue r.total_liabilities)
        - componentValue r.posted_equity
        - (componentValue r.prior_pl + componentValue r.posted_re)
        - componentValue r.net_income
    ∧ (calculate_cta period r).components.total_equity =
        componentValue r.total_assets - componentValue r.total_liabilities
    ∧ (calculate_cta period r).components.retained_earnings =
        componentValue r.prior_pl + componentValue r.posted_re
    ∧ (calculate_cta period r).components.retained_earnings =
        calculate_retained_earnings r.prior_pl r.posted_re :=
  ⟨rfl, rfl, rfl, rfl⟩

/-- C2 counterexample: the claim says every emitted balance query applies
the §4.3 multiplier, i.e. −1 for the liability type AcctPay; but the
query emitted by `build_bs_query_single_period` carries no sign CASE at
all, so an AcctPay row contributes its raw amount unflipped. -/
theorem c2_counterexample :
    bsSingleQueryRowAmount AcctType.acctPay 7 = 7 ∧
      spec_sign_multiplier AcctType.acctPay * 7 = -7 ∧
      bsSingleQueryRowAmount AcctType.acctPay 7 ≠ spec_sign_multiplier AcctType.acctPay * 7 := by
  refine ⟨rfl, by norm_num [spec_sign_multiplier], ?_⟩
  norm_num [bsSingleQueryRowAmount, bsSingleQuerySignFactors, spec_sign_multiplier]

/-- C2 (amended): `build_pl_query` applies exactly one sign CASE, whose
multiplier agrees with the §4.3 table on every P&L type (so Income and
Other Income are flipped exactly once and never a second time — no
`Matching%` CASE is emitted), while `build_bs_query_single_period`
applies no multiplier at all, leaving every Balance-Sheet category —
including liabilities and equity — at its raw sign. -/
theorem c2_sign_convention (t : AcctType) (raw : ℚ) :
    (t ∈ PL_TYPES → plQueryRowAmount t raw = spec_sign_multiplier t * raw)
    ∧ (plQuerySignFactors t).length = 1
    ∧ bsSingleQueryRowAmount t raw = raw := by
  refine ⟨?_, rfl, rfl⟩
  intro ht
  simp only [PL_TYPES, List.mem_cons, List.not_mem_nil, or_false] at ht
  rcases ht with h | h | h | h | h | h <;> subst h <;>
    simp [plQueryRowAmount, plQuerySignFactors, spec_sign_multiplier, INCOME_TYPES,
      mul_comm]

/-- C2 witness: the amended statement evaluated at the Income type and a
raw amount of 5. -/
theorem c2_sign_convention_witness :
    plQueryRowAmount AcctType.income 5 = spec_sign_multiplier AcctType.income * 5
    ∧ (plQuerySignFactors AcctType.income).length = 1
    ∧ bsSingleQueryRowAmount AcctType.income 5 = 5 :=
  ⟨(c2_sign_convention AcctType.income 5).1 (by decide),
   (c2_sign_convention AcctType.income 5).2.1,
   (c2_sign_convention AcctType.income 5).2.2⟩

/-- C6: every component query is attempted at most 3 times; when every
attempt is rate-limited, exactly 3 attempts run, the sleeps are the
strictly increasing 2s, 4s, 6s linear backoff, and the final outcome is
the still-rate-limited error result itself, not a zero. -/
theorem c6_retry_policy (exec : ℕ → NsResult) :
    (queryWithRetry exec).2.1 ≤ 3
    ∧ ((∀ k, isRateLimitError (exec k) = true) →
        (queryWithRetry exec).1 = exec 2
        ∧ isRateLimitError (queryWithRetry exec).1 = true
        ∧ (queryWithRetry exec).2.1 = 3
        ∧ (queryWithRetry exec).2.2 = [2, 4, 6]
        ∧ List.Chain' (· < ·) (queryWithRetry exec).2.2) := by
  constructor
  · show (queryWithRetryGo exec 0 (NsResult.rows []) 3).2.1 ≤ 3
    by_cases h0 : isRateLimitError (exec 0) = true
    · by_cases h1 : isRateLimitError (exec 1) = true
      · by_cases h2 : isRateLimitError (exec 2) = true
        · simp [queryWithRetryGo, h0, h1, h2]
        · simp [queryWithRetryGo, h0, h1, h2]
      · simp [queryWithRetryGo, h0, h1]
    · simp [queryWithRetryGo, h0]
  · intro h
    have e : queryWithRetry exec = (exec 2, 3, [2, 4, 6]) := by
      simp only [queryWithRetry, queryWithRetryGo, h 0, h 1, h 2, if_true]
    rw [e]
    exact ⟨rfl, h 2, rfl, rfl, by
      show List.Chain' (· < ·) [2, 4, 6]
      norm_num [List.chain'_cons, List.chain'_singleton]⟩

/-- C6 witness: the retry policy evaluated on an execution whose every
attempt returns an HTTP 429 rate-limit error. -/
theorem c6_retry_policy_witness :
    (queryWithRetry (fun _ : ℕ => NsResult.error "429")).2.1 ≤ 3
    ∧ (queryWithRetry (fun _ : ℕ => NsResult.error "429")).1 = NsResult.error "429"
    ∧ (queryWithRetry (fun _ : ℕ => NsResult.error "429")).2.2 = [2, 4, 6] := by
  have h := c6_retry_policy (fun _ : ℕ => NsResult.error "429")
  have hrl : ∀ k : ℕ, isRateLimitError ((fun _ : ℕ => NsResult.error "429") k) = true := by
    intro k
    show isRateLimitError (NsResult.error "429") = true
    decide
  exact ⟨h.1, (h.2 hrl).1, (h.2 hrl).2.2.2.1⟩

/-- C3 counterexample: contrary to the claim that every Balance-Sheet
balance query consolidates at the report period's id, the cumulative
Balance-Sheet branch of `get_balance` and the prior-year ending-balance
query of `batch_full_year_refresh` both hand `t.postingperiod` — each
transaction's own posting period — to `BUILTIN.CONSOLIDATE`. -/
theorem c3_counterexample :
    getBalanceConsPeriod true false = ConsPeriod.postingPeriod
    ∧ priorYearBalanceQueryConsPeriod = ConsPeriod.postingPeriod :=
  ⟨rfl, rfl⟩

/-- C3 (amended): `build_bs_query_single_period` (used by the batch
balance endpoint) and the CTA component queries consolidate at the
target period's id, falling back to the raw, unconsolidated amount when
the period id is unresolved; but the `/balance` endpoint's queries —
including its cumulative Balance-Sheet branch — and the full-year
refresh's prior-year ending-balance query consolidate at each
transaction's own posting period. -/
theorem c3_consolidate_period (endDate : String) (pid : ℕ) (sub : String) (tpid : ℕ)
    (isCum lineJoin : Bool) :
    (build_bs_query_single_period endDate (some pid)).consPeriod = ConsPeriod.targetPeriod pid
    ∧ (build_bs_query_single_period endDate none).consPeriod = ConsPeriod.rawAmount
    ∧ ctaConsPeriod (some sub) tpid = ConsPeriod.targetPeriod tpid
    ∧ getBalanceConsPeriod isCum lineJoin = ConsPeriod.postingPeriod
    ∧ priorYearBalanceQueryConsPeriod = ConsPeriod.postingPeriod :=
  ⟨rfl, rfl, rfl, rfl, rfl⟩

/-- Concrete CTA component results in which the Liabilities query failed
upstream while every other component returned a row. -/
def c7FailedQueries : CTAQueryResults :=
  { total_assets := NsResult.rows [some 1000]
    total_liabilities := NsResult.error "Simulated upstream failure"
    posted_equity := NsResult.rows [some 300]
    prior_pl := NsResult.rows [some 120]
    posted_re := NsResult.rows [some 30]
    net_income := NsResult.rows [some 50] }

/-- The same component results, except the Liabilities query genuinely
returned 0. -/
def c7ZeroQueries : CTAQueryResults :=
  { total_assets := NsResult.rows [some 1000]
    total_liabilities := NsResult.rows [some 0]
    posted_equity := NsResult.rows [some 300]
    prior_pl := NsResult.rows [some 120]
    posted_re := NsResult.rows [some 30]
    net_income := NsResult.rows [some 50] }

/-- C7 counterexample: the `/cta` response payload for a request whose
Liabilities component failed is byte-for-byte identical to the payload of
a request whose Liabilities legitimately summed to 0 — the failure is
recorded only in the internal, logged `query_errors` list, so the
response payload does not note the failure as the claim states. -/
theorem c7_counterexample :
    calculate_cta "Mar 2025" c7FailedQueries = calculate_cta "Mar 2025" c7ZeroQueries
    ∧ ctaQueryErrors c7FailedQueries = ["total_liabilities: Simulated upstream failure"]
    ∧ ctaQueryErrors c7ZeroQueries = [] :=
  ⟨rfl, rfl, rfl⟩

/-- C7 (amended): when a component sub-query of the CTA aggregation
fails, the operation still succeeds and returns the aggregate computed
with the failed component as 0, and the failure is recorded in the
internal `query_errors` list and logged — but that list is not included
in the response payload, which is indistinguishable from a payload whose
component legitimately returned 0. -/
theorem c7_component_failure_isolated (period : String) (r : CTAQueryResults) (d : String)
    (hL : r.total_liabilities = NsResult.error d) :
    (calculate_cta period r).components.total_liabilities = 0
    ∧ (calculate_cta period r).value =
        (componentValue r.total_assets - 0) - componentValue r.posted_equity
          - (componentValue r.prior_pl + componentValue r.posted_re)
          - componentValue r.net_income
    ∧ ("total_liabilities: " ++ d) ∈ ctaQueryErrors r
    ∧ calculate_cta period r =
        calculate_cta period { r with total_liabilities := NsResult.rows [some 0] } := by
  refine ⟨?_, ?_, ?_, ?_⟩
  · simp [calculate_cta, hL, componentValue]
  · simp [calculate_cta, hL, componentValue]
  · simp only [ctaQueryErrors, componentError, hL, List.reduceOption_mem_iff]
    simp
  · simp [calculate_cta, hL, componentValue]

/-- C7 witness: the amended statement evaluated on the concrete failed
component results. -/
theorem c7_component_failure_witness :
    (calculate_cta "Mar 2025" c7FailedQueries).components.total_liabilities = 0
    ∧ ("total_liabilities: " ++ "Simulated upstream failure") ∈ ctaQueryErrors c7FailedQueries :=
  ⟨(c7_component_failure_isolated "Mar 2025" c7FailedQueries "Simulated upstream failure" rfl).1,
   (c7_component_failure_isolated "Mar 2025" c7FailedQueries "Simulated upstream failure" rfl).2.2.1⟩

/-- C5: an account is Balance-Sheet iff its type is in neither the fixed
P&L type set nor the non-financial/statistical set; for a Balance-Sheet
account `get_balance` ignores the caller-supplied start period and emits
a cumulative filter with no lower date bound (only
`t.trandate <= period end`), while a P&L account is bounded to the
`[startPeriod, endPeriod]` date range; likewise the batch Balance-Sheet
query template carries an upper date bound and no lower bound. -/
theorem c5_bs_pl_query_semantics (t : AcctType) (fromPeriod toPeriod : String)
    (dates : String → Option (String × String)) (endDate : String) (pid : Option ℕ)
    (fs fe ts te : String)
    (hf : fromPeriod ≠ "") (ht : toPeriod ≠ "")
    (hfd : isAllDigits fromPeriod = false) (htd : isAllDigits toPeriod = false)
    (hdf : dates fromPeriod = some (fs, fe)) (hdt : dates toPeriod = some (ts, te)) :
    (is_balance_sheet_account t = true ↔ t ∉ PL_TYPES ∧ t ∉ NON_FINANCIAL_TYPES)
    ∧ get_balance_period_filter (is_balance_sheet_account t) fromPeriod toPeriod dates =
        (if is_balance_sheet_account t then PeriodFilter.cumulative te
         else PeriodFilter.dateRange fs te)
    ∧ (build_bs_query_single_period endDate pid).tranDateLower = none
    ∧ (build_bs_query_single_period endDate pid).tranDateUpper = endDate := by
  refine ⟨?_, ?_, rfl, rfl⟩
  · simp [is_balance_sheet_account, is_balance_sheet]
  · have hf' : fromPeriod.isEmpty = false := by
      rw [Bool.eq_false_iff]
      intro hc
      exact hf ((String.isEmpty_iff fromPeriod).mp hc)
    have ht' : toPeriod.isEmpty = false := by
      rw [Bool.eq_false_iff]
      intro hc
      exact ht ((String.isEmpty_iff toPeriod).mp hc)
    have he : ("" : String).isEmpty = true := rfl
    cases hbs : is_balance_sheet_account t with
    | true =>
        simp [get_balance_period_filter, hf', ht', he, htd, hdt]
    | false =>
        simp [get_balance_period_filter, hf', ht', hfd, htd, hdf, hdt]

/-- C5 witness period-date oracle: start and end dates for the two
periods of the witness request. -/
def c5dates : String → Option (String × String) := fun s =>
  if s = "Jan 2025" then some ("2025-01-01", "2025-01-31")
  else if s = "Mar 2025" then some ("2025-03-01", "2025-03-31")
  else none

/-- C5 witness: the Balance-Sheet (Bank) and P&L (Income) query
semantics evaluated on a concrete `[Jan 2025, Mar 2025]` request. -/
theorem c5_bs_pl_query_semantics_witness :
    get_balance_period_filter (is_balance_sheet_account AcctType.bank)
        "Jan 2025" "Mar 2025" c5dates = PeriodFilter.cumulative "2025-03-31"
    ∧ get_balance_period_filter (is_balance_sheet_account AcctType.income)
        "Jan 2025" "Mar 2025" c5dates = PeriodFilter.dateRange "2025-01-01" "2025-03-31"
    ∧ (build_bs_query_single_period "2025-03-31" (some 123)).tranDateLower = none := by
  have h1 := (c5_bs_pl_query_semantics AcctType.bank "Jan 2025" "Mar 2025" c5dates
    "2025-03-31" (some 123) "2025-01-01" "2025-01-31" "2025-03-01" "2025-03-31"
    (by decide) (by decide) (by decide) (by decide) rfl rfl)
  have h2 := (c5_bs_pl_query_semantics AcctType.income "Jan 2025" "Mar 2025" c5dates
    "2025-03-31" (some 123) "2025-01-01" "2025-01-31" "2025-03-01" "2025-03-31"
    (by decide) (by decide) (by decide) (by decide) rfl rfl)
  refine ⟨?_, ?_, h1.2.2.1⟩
  · simpa using h1.2.1
  · simpa using h2.2.1

/-- Lookup in an association list built by tagging each element of a
list with a value computed from it. -/
theorem alookup_map_self {β : Type} (g : String → β) :
    ∀ (l : List String) (a : String), a ∈ l →
      alookup (l.map (fun x => (x, g x))) a = some (g a) := by
  intro l
  induction l with
  | nil => intro a ha; cases ha
  | cons x xs ih =>
      intro a ha
      simp only [List.map_cons, alookup]
      by_cases hx : x = a
      · subst hx; simp
      · rw [if_neg hx]
        rcases List.mem_cons.mp ha with h | h
        · exact absurd h.symm hx
        · exact ih a h

/-- C4: a batch balance request is answered from the balance cache
exactly when the cache is non-empty, timestamped, younger than the
5-minute TTL, and every requested `account:period:fingerprint` key is
present; in that case every served value is the cached value, and any
single missing key makes the decision `none`, i.e. the whole batch falls
through to fresh ledger queries with no partial-cache assembly. -/
theorem c4_batch_cache_all_or_nothing (cache : List (String × ℚ)) (tsSet : Bool) (age : ℚ)
    (accounts periods : List String) (fh : String) :
    ((batchBalanceFromCache cache tsSet age accounts periods fh).isSome = true ↔
      (cache ≠ [] ∧ tsSet = true ∧ age < BALANCE_CACHE_TTL ∧
        ∀ a ∈ accounts, ∀ p ∈ periods,
          (alookup cache (balanceCacheKey a p fh)).isSome = true))
    ∧ (∀ r, batchBalanceFromCache cache tsSet age accounts periods fh = some r →
        ∀ a ∈ accounts, ∀ p ∈ periods,
          servedValue r a p = some ((alookup cache (balanceCacheKey a p fh)).getD 0)) := by
  constructor
  · unfold batchBalanceFromCache
    split_ifs with hc hage hall
    · simp only [Option.isSome_some, true_iff]
      refine ⟨?_, ?_, hage, ?_⟩
      · intro hnil
        subst hnil
        simp at hc
      · exact (Bool.and_eq_true _ _).mp hc |>.2
      · intro a ha p hp
        have hall' := (List.all_eq_true.mp hall) a ha
        exact (List.all_eq_true.mp hall') p hp
    · simp only [Option.isSome_none, Bool.false_eq_true, false_iff, not_and]
      intro _ _ _ hkeys
      exact hall (List.all_eq_true.mpr fun a ha =>
        List.all_eq_true.mpr fun p hp => hkeys a ha p hp)
    · simp only [Option.isSome_none, Bool.false_eq_true, false_iff, not_and]
      intro _ _ hlt
      exact absurd hlt hage
    · simp only [Option.isSome_none, Bool.false_eq_true, false_iff, not_and]
      intro hnil hts
      exfalso
      apply hc
      rw [Bool.and_eq_true, hts]
      refine ⟨?_, rfl⟩
      cases cache with
      | nil => exact absurd rfl hnil
      | cons x xs => rfl
  · intro r hr a ha p hp
    unfold batchBalanceFromCache at hr
    split_ifs at hr with hc hage hall
    obtain rfl : (accounts.map (fun a =>
        (a, periods.map (fun p =>
          (p, (alookup cache (balanceCacheKey a p fh)).getD 0))))) = r :=
      Option.some_inj.mp hr
    unfold servedValue
    rw [alookup_map_self
      (fun a => periods.map (fun p => (p, (alookup cache (balanceCacheKey a p fh)).getD 0)))
      accounts a ha]
    simp only [Option.some_bind]
    rw [alookup_map_self (fun p => (alookup cache (balanceCacheKey a p fh)).getD 0) periods p hp]

/-- C4 witness: the cache-hit path evaluated on a one-account,
one-period batch whose single key is present in a fresh cache. -/
theorem c4_batch_cache_witness :
    servedValue [("4010", [("Jan 2025", (5 : ℚ))])] "4010" "Jan 2025" =
      some ((alookup [(balanceCacheKey "4010" "Jan 2025" "1:::", (5 : ℚ))]
        (balanceCacheKey "4010" "Jan 2025" "1:::")).getD 0) := by
  exact (c4_batch_cache_all_or_nothing
      [(balanceCacheKey "4010" "Jan 2025" "1:::", (5 : ℚ))] true 10 ["4010"] ["Jan 2025"]
      "1:::").2
    [("4010", [("Jan 2025", (5 : ℚ))])] (by decide) "4010" (by simp) "Jan 2025" (by simp)

/-- The child-appending fold of the breadth-first traversal never drops
ids already accumulated. -/
theorem bfsFold_mem_acc (x : String) :
    ∀ (l : List String) (st : List String × List String), x ∈ st.1 →
      x ∈ (l.foldl
        (fun (st : List String × List String) c =>
          if st.1.contains c then st else (st.1 ++ [c], st.2 ++ [c])) st).1 := by
  intro l
  induction l with
  | nil => intro st h; exact h
  | cons c cs ih =>
      intro st h
      simp only [List.foldl_cons]
      apply ih
      by_cases hc : st.1.contains c = true
      · rw [if_pos hc]
        exact h
      · rw [if_neg hc]
        exact List.mem_append_left _ h

/-- Ids accumulated before the breadth-first traversal stay in its
result, for every fuel. -/
theorem bfsHierarchy_mem_acc (rows : List SubRow) (x : String) :
    ∀ (fuel : ℕ) (acc queue : List String), x ∈ acc →
      x ∈ bfsHierarchy rows fuel acc queue := by
  intro fuel
  induction fuel with
  | zero => intro acc queue h; simpa [bfsHierarchy] using h
  | succ n ih =>
      intro acc queue h
      cases queue with
      | nil => simpa [bfsHierarchy] using h
      | cons current rest =>
          simp only [bfsHierarchy]
          apply ih
          exact bfsFold_mem_acc x (childrenOf rows current) (acc, rest) h

/-- C8: hierarchy resolution always contains the target itself; when the
target is the root (parent NULL) the result contains every fetched
active subsidiary — a superset of every active non-eliminated
subsidiary; and when the bulk fetch fails or returns a non-list, the
result is exactly the degraded single-entity view `[target]`. -/
theorem c8_hierarchy_resolution (targetId : String) (fetch : Option (List SubRow)) :
    targetId ∈ get_subsidiaries_in_hierarchy targetId fetch
    ∧ (∀ rows r, fetch = some rows →
        rows.reverse.find? (fun row => row.id = targetId) = some r →
        r.parent = none →
        ∀ s ∈ rows, s.id ∈ get_subsidiaries_in_hierarchy targetId fetch)
    ∧ (fetch = none → get_subsidiaries_in_hierarchy targetId fetch = [targetId]) := by
  refine ⟨?_, ?_, ?_⟩
  · cases fetch with
    | none => simp [get_subsidiaries_in_hierarchy]
    | some rows =>
        cases hfind : rows.reverse.find? (fun r => r.id = targetId) with
        | none =>
            simp only [get_subsidiaries_in_hierarchy, hfind]
            exact bfsHierarchy_mem_acc rows targetId _ _ _ (by simp)
        | some r =>
            simp only [get_subsidiaries_in_hierarchy, hfind]
            by_cases hp : r.parent = none
            · rw [if_pos hp]
              have hr : r ∈ rows.reverse := List.mem_of_find?_eq_some hfind
              have hid : r.id = targetId := by simpa using List.find?_some hfind
              rw [List.mem_dedup, ← hid]
              exact List.mem_map_of_mem _ (List.mem_reverse.mp hr)
            · rw [if_neg hp]
              exact bfsHierarchy_mem_acc rows targetId _ _ _ (by simp)
  · intro rows r hfetch hfind hp s hs
    subst hfetch
    simp only [get_subsidiaries_in_hierarchy, hfind, if_pos hp, List.mem_dedup]
    exact List.mem_map_of_mem _ hs
  · intro h
    subst h
    rfl

/-- C8 witness subsidiary rows: a root `"1"` and its child `"2"`. -/
def c8rows : List SubRow :=
  [{ id := "1", parent := none, iselimination := false },
   { id := "2", parent := some "1", iselimination := false }]

/-- C8 witness: hierarchy resolution evaluated on the concrete two-row
forest and on a failed fetch. -/
theorem c8_hierarchy_resolution_witness :
    ("1" : String) ∈ get_subsidiaries_in_hierarchy "1" (some c8rows)
    ∧ ("2" : String) ∈ get_subsidiaries_in_hierarchy "1" (some c8rows)
    ∧ get_subsidiaries_in_hierarchy "3" none = ["3"] := by
  have h1 := c8_hierarchy_resolution "1" (some c8rows)
  have h3 := c8_hierarchy_resolution "3" none
  refine ⟨h1.1, ?_, h3.2.2 rfl⟩
  have h2 := h1.2.1 c8rows { id := "1", parent := none, iselimination := false }
    rfl (by decide) rfl { id := "2", parent := some "1", iselimination := false }
    (by simp [c8rows])
  simpa using h2

/-- C9 counterexample: a prior-year ending balance of 0.005 with a
January activity of 0 stores 0 for January (the running cumulative is
snapped to 0 by the `< 0.01` precision rule), not the claimed
`prior + Σ activity = 0.005`. -/
theorem c9_counterexample :
    cumulativeBalances (1 / 200 : ℚ) [0] = [0]
    ∧ (1 / 200 : ℚ) + ([(0 : ℚ)].take 1).sum = 1 / 200
    ∧ (0 : ℚ) ≠ 1 / 200 := by
  refine ⟨?_, by norm_num, by norm_num⟩
  show [snapTiny (1 / 200 + 0)] = [0]
  norm_num [snapTiny, abs]

/-- C9 (amended): the cumulative balance stored for month `m` equals the
prior fiscal year's ending balance plus the sum of the monthly activity
from January through `m`, provided no intermediate running cumulative
falls below 0.01 in absolute value (such values are snapped to exactly 0
by the refresh's floating-point tidy-up before being stored and carried
forward). -/
theorem c9_cumulative_reconstruction (prior : ℚ) (acts : List ℚ) (m : ℕ)
    (hm : m < acts.length)
    (hsnap : ∀ k, k ≤ m → 1 / 100 ≤ |prior + (acts.take (k + 1)).sum|) :
    (cumulativeBalances prior acts).getD m 0 = prior + (acts.take (m + 1)).sum := by
  induction acts generalizing prior m with
  | nil => exact absurd hm (by simp)
  | cons a rest ih =>
      have h0 : 1 / 100 ≤ |prior + a| := by simpa using hsnap 0 (Nat.zero_le m)
      have hs : snapTiny (prior + a) = prior + a := by
        unfold snapTiny
        rw [if_neg (not_lt.mpr h0)]
      cases m with
      | zero => simp [cumulativeBalances, hs]
      | succ m' =>
          have hm' : m' < rest.length := by simpa using hm
          have hsnap' : ∀ k, k ≤ m' → 1 / 100 ≤ |prior + a + (rest.take (k + 1)).sum| := by
            intro k hk
            have := hsnap (k + 1) (by omega)
            simpa [List.take_succ_cons, List.sum_cons, add_assoc] using this
          have hih := ih (prior + a) m' hm' hsnap'
          calc (cumulativeBalances prior (a :: rest)).getD (m' + 1) 0
              = (cumulativeBalances (snapTiny (prior + a)) rest).getD m' 0 := by
                simp [cumulativeBalances, List.getD_cons_succ]
            _ = (cumulativeBalances (prior + a) rest).getD m' 0 := by rw [hs]
            _ = prior + a + (rest.take (m' + 1)).sum := hih
            _ = prior + ((a :: rest).take (m' + 1 + 1)).sum := by
                simp [List.take_succ_cons, List.sum_cons]
                ring

/-- C9 witness: the amended reconstruction evaluated for February of a
year with activities 1 and 2 on a prior-year balance of 10. -/
theorem c9_cumulative_reconstruction_witness :
    (cumulativeBalances (10 : ℚ) [1, 2]).getD 1 0 = 10 + ([(1 : ℚ), 2].take 2).sum := by
  apply c9_cumulative_reconstruction
  · norm_num
  · intro k hk
    interval_cases k
    · norm_num [List.take, abs]
    · norm_num [List.take, abs]

/-- Every key written by the P&L portion of the refresh has this
refresh's own month, fiscal year and filter fingerprint. -/
theorem plCacheEntries_key (inp : RefreshInput) :
    ∀ kv ∈ plCacheEntries inp, ∃ acct month, month ∈ monthAbbrevs ∧
      kv.1 = balanceCacheKey acct (periodNameOf month inp.fiscalYear) inp.filtersHash := by
  intro kv hkv
  rw [plCacheEntries, List.mem_flatMap] at hkv
  obtain ⟨av, _, hkv⟩ := hkv
  rw [List.mem_map] at hkv
  obtain ⟨⟨mo, v⟩, hmv, rfl⟩ := hkv
  exact ⟨av.1, mo, (List.of_mem_zip hmv).1, rfl⟩

/-- Every key written by the cumulative-BS portion of the refresh has
this refresh's own month, fiscal year and filter fingerprint. -/
theorem bsCumulativeEntries_key (inp : RefreshInput) :
    ∀ kv ∈ bsCumulativeEntries inp, ∃ acct month, month ∈ monthAbbrevs ∧
      kv.1 = balanceCacheKey acct (periodNameOf month inp.fiscalYear) inp.filtersHash := by
  intro kv hkv
  rw [bsCumulativeEntries, List.mem_flatMap] at hkv
  obtain ⟨av, _, hkv⟩ := hkv
  rw [List.mem_map] at hkv
  obtain ⟨⟨mo, v⟩, hmv, rfl⟩ := hkv
  exact ⟨av.1, mo, (List.of_mem_zip hmv).1, rfl⟩

/-- Every key written into the BS activity cache has the `activity:`
tag and this refresh's own month, fiscal year and filter fingerprint. -/
theorem bsActivityEntries_key (inp : RefreshInput) :
    ∀ kv ∈ bsActivityEntries inp, ∃ acct month, month ∈ monthAbbrevs ∧
      kv.1 = "activity:" ++
        balanceCacheKey acct (periodNameOf month inp.fiscalYear) inp.filtersHash := by
  intro kv hkv
  rw [bsActivityEntries, List.mem_flatMap] at hkv
  obtain ⟨av, _, hkv⟩ := hkv
  rw [List.mem_map] at hkv
  obtain ⟨⟨mo, v⟩, hmv, rfl⟩ := hkv
  exact ⟨av.1, mo, (List.of_mem_zip hmv).1, rfl⟩

/-- C10 counterexample: a refresh with `skip_bs=true` returns before the
BS activity cache is cleared, so an activity entry written by an earlier
refresh (here under a different fiscal year and fingerprint) is still
present afterwards — the claim's unconditional "empties the map (and the
BS activity cache)" fails. -/
theorem c10_counterexample :
    ("activity:1000:Jan 2024:old", (5 : ℚ)) ∈
      (batch_full_year_refresh
        { balanceCache := [], bsActivityCache := [("activity:1000:Jan 2024:old", 5)] }
        { fiscalYear := 2025, filtersHash := "1:::", plBalances := [], skipBs := true,
          bsActivity := [], priorYearBalances := [] }).bsActivityCache := by
  simp [batch_full_year_refresh]

/-- C10 (amended): a full-year refresh always replaces the balance cache
wholesale — its content afterwards is a function of this refresh's
inputs alone, and every key carries this refresh's own month names,
fiscal year and filter fingerprint — and when the refresh runs its
Balance-Sheet phase (`skip_bs` false) the BS activity cache is likewise
wholesale-replaced; a `skip_bs` refresh leaves the BS activity cache
untouched. -/
theorem c10_refresh_replaces_cache (old old2 : CacheState) (inp : RefreshInput) :
    (batch_full_year_refresh old inp).balanceCache
      = (batch_full_year_refresh old2 inp).balanceCache
    ∧ (∀ kv ∈ (batch_full_year_refresh old inp).balanceCache, ∃ acct month,
        month ∈ monthAbbrevs ∧
        kv.1 = balanceCacheKey acct (periodNameOf month inp.fiscalYear) inp.filtersHash)
    ∧ (inp.skipBs = false →
        (batch_full_year_refresh old inp).bsActivityCache
          = (batch_full_year_refresh old2 inp).bsActivityCache
        ∧ ∀ kv ∈ (batch_full_year_refresh old inp).bsActivityCache, ∃ acct month,
            month ∈ monthAbbrevs ∧
            kv.1 = "activity:" ++
              balanceCacheKey acct (periodNameOf month inp.fiscalYear) inp.filtersHash)
    ∧ (inp.skipBs = true →
        (batch_full_year_refresh old inp).bsActivityCache = old.bsActivityCache) := by
  refine ⟨?_, ?_, ?_, ?_⟩
  · cases h : inp.skipBs <;> simp [batch_full_year_refresh, h]
  · intro kv hkv
    cases h : inp.skipBs
    · rw [batch_full_year_refresh, if_neg (by simp [h])] at hkv
      rcases List.mem_append.mp hkv with hkv | hkv
      · exact plCacheEntries_key inp kv hkv
      · exact bsCumulativeEntries_key inp kv hkv
    · rw [batch_full_year_refresh, if_pos h] at hkv
      exact plCacheEntries_key inp kv hkv
  · intro h
    rw [batch_full_year_refresh, batch_full_year_refresh,
      if_neg (by simp [h]), if_neg (by simp [h])]
    exact ⟨rfl, bsActivityEntries_key inp⟩
  · intro h
    rw [batch_full_year_refresh, if_pos h]

/-- C10 witness refresh input: fiscal year 2025, one P&L and one BS
account, Balance-Sheet phase included. -/
def c10inp : RefreshInput :=
  { fiscalYear := 2025, filtersHash := "1:::", plBalances := [("4010", [5])],
    skipBs := false, bsActivity := [("1000", [3])], priorYearBalances := [("1000", 7)] }

/-- C10 witness: wholesale replacement evaluated on two different old
cache states and the concrete refresh input. -/
theorem c10_refresh_replaces_cache_witness :
    (batch_full_year_refresh
        { balanceCache := [("old", 1)], bsActivityCache := [("oldact", 2)] } c10inp).balanceCache
      = (batch_full_year_refresh
        { balanceCache := [], bsActivityCache := [] } c10inp).balanceCache
    ∧ (batch_full_year_refresh
        { balanceCache := [("old", 1)], bsActivityCache := [("oldact", 2)] } c10inp).bsActivityCache
      = (batch_full_year_refresh
        { balanceCache := [], bsActivityCache := [] } c10inp).bsActivityCache := by
  have h := c10_refresh_replaces_cache
    { balanceCache := [("old", 1)], bsActivityCache := [("oldact", 2)] }
    { balanceCache := [], bsActivityCache := [] } c10inp
  exact ⟨h.1, (h.2.2.1 rfl).1⟩

end NsXavi
